import Mathlib

/-!
Shallow embedding of the GetPeper crawl-and-collect pipeline
(src/getpaper/spiders/PubMed.py and src/getpaper/GUI/menu.py) and proofs
about it.

HTML parsing with BeautifulSoup is abstracted: a fetched page is modelled
by the outcome of the selector queries the code performs on it (present
tag text vs. absent tag), never by raw HTML.  Network fetches are modelled
by an explicit outcome value (success / timeout / page shape), supplied as
a function parameter, so every run of the embedded code is a pure function
of the remote service's behaviour.
-/

namespace GetPaper

/-- Base URL of the PubMed spider (PubMed.py, line 17). -/
def base_url : String := "https://pubmed.ncbi.nlm.nih.gov/"

/-! ### Query building: Spider.parseData (PubMed.py, lines 24-50) -/

/-- The payload dictionary built by parseData.  The Python dict gains a
key only when the corresponding branch runs, so optional keys are
Option-valued. -/
structure QueryData where
  term : String
  sort : Option String
  sort_order : Option String
deriving DecidableEq, Repr

/-- Spider.parseData (PubMed.py, lines 24-50).  Python string truthiness
is non-emptiness, so each clause guard is a non-emptiness test. -/
def parseData (keyword start_year end_year author journal sorting : String) :
    QueryData :=
  let term : List String := [keyword]
  let term := if start_year ≠ "" ∧ end_year ≠ "" then
      term ++ [start_year ++ ":" ++ end_year ++ "[dp]"] else term
  let term := if author ≠ "" then term ++ [author ++ "[author]"] else term
  let term := if journal ≠ "" then term ++ [journal ++ "[journal]"] else term
  { term := " AND ".intercalate term
    sort := if sorting.startsWith "日期" then some "date" else none
    sort_order := if sorting.endsWith "逆序" then some "asc" else none }

/-! ### Total count: Spider.getTotalPaperNum (PubMed.py, lines 52-72) -/

/-- Outcome of fetching the summary page, as seen by the selector queries
of getTotalPaperNum: either the request timed out, or a page arrived,
characterised by whether it has a single-result-redirect span and by the
shape of its results-amount element.  resultsAmount is
none                    : no div with class results-amount (the code then
                          dereferences .span on None);
some none               : the div exists but holds no span (the code falls
                          back to the string "0");
some (some s)           : the div's span holds text s. -/
inductive TotalPage where
  | timeout
  | page (singleResultRedirect : Bool) (resultsAmount : Option (Option String))
deriving DecidableEq, Repr

/-- How getTotalPaperNum ends: a normal return value, a raised
TipException carrying a user-visible message, or an uncaught Python
error (AttributeError from dereferencing .span on None). -/
inductive TotalNumResult where
  | ok (s : String)
  | tip (msg : String)
  | pythonError (msg : String)
deriving DecidableEq, Repr

/-- Spider.getTotalPaperNum (PubMed.py, lines 52-72). -/
def getTotalPaperNum : TotalPage → TotalNumResult
  | .timeout => .tip "连接超时"
  | .page singleResultRedirect resultsAmount =>
    if singleResultRedirect then
      .ok ("共找到" ++ "1" ++ "篇")
    else
      match resultsAmount with
      | none => .pythonError "AttributeError"
      | some none => .ok ("共找到" ++ "0" ++ "篇")
      | some (some s) => .ok ("共找到" ++ (s.replace "," "") ++ "篇")

/-! ### Paginated PMID fetching: Spider.getPMIDs (PubMed.py, lines 76-109) -/

/-- Outcome of requesting one listing page, as seen by getPMIDs: the
request timed out, or the page has no pre tag of class
search-results-chunk (the code's "not found" marker), or the chunk was
found and its text splits into the given identifier list. -/
inductive PageResult where
  | found (ids : List String)
  | notFound
  | timeout
deriving DecidableEq, Repr

/-- How the while-loop of getPMIDs was left: normal exit (loop condition
became false, or the single-identifier break ran), or an in-flight
exception at the moment control reached the finally block (the raised
TipException for "not found", or the TimeoutError turned TipException).
Either exception is then discarded: the return statement inside the
finally block of getPMIDs replaces any in-flight exception with a normal
return (and the bare `except Exception` clause would already have caught
the not-found TipException). -/
inductive LoopExit where
  | normal
  | notFound
  | timeout
deriving DecidableEq, Repr

/-- State at the end of the while-loop of getPMIDs: the accumulated
pmid_list, the listing pages for which a request was issued (in order),
and how the loop was left. -/
structure LoopState where
  acc : List String
  pages : List Nat
  exit : LoopExit
deriving DecidableEq, Repr

/-- The while-loop of getPMIDs (PubMed.py, lines 84-102).  The Python
condition `page <= (num - 1) // 200 + 1` with page starting at 1 and
increasing by exactly one per iteration is embedded by running the body
`((num - 1) // 200 + 1).toNat` times (the fuel argument), which visits
the same pages 1, 2, ... in the same order.  A page whose chunk splits
into exactly one identifier triggers the break on line 100. -/
def pmidLoop (fetch : Nat → PageResult) :
    Nat → Nat → List String → List Nat → LoopState
  | 0, _, acc, pages => ⟨acc, pages, .normal⟩
  | fuel + 1, page, acc, pages =>
    match fetch page with
    | .timeout => ⟨acc, pages ++ [page], .timeout⟩
    | .notFound => ⟨acc, pages ++ [page], .notFound⟩
    | .found ids =>
      if ids.length = 1 then ⟨acc ++ ids, pages ++ [page], .normal⟩
      else pmidLoop fetch fuel (page + 1) (acc ++ ids) (pages ++ [page])

/-- Python list slice l[:n] for an int n: the first n elements when n is
non-negative, everything but the last -n elements when n is negative. -/
def pySlice (l : List String) (n : Int) : List String :=
  if 0 ≤ n then l.take n.toNat else l.take (l.length - (-n).toNat)

/-- Observable result of one call to Spider.getPMIDs: the returned list,
the listing pages requested, the rows put into result_queue by the
not-found branch (lines 92-93), and the exception escaping the call.
`raised` is always none: every exception path of getPMIDs (the raised
not-found TipException, the TimeoutError handler's TipException, any
other fetch error) reaches the finally block, whose return statement
discards the in-flight exception (Python semantics of return inside
finally), so the call always returns pmid_list[:num] normally. -/
structure PMIDsResult where
  pmids : List String
  pagesRequested : List Nat
  queuePuts : List (Nat × List String)
  raised : Option String
deriving DecidableEq, Repr

/-- Spider.getPMIDs (PubMed.py, lines 76-109). -/
def getPMIDs (fetch : Nat → PageResult) (num : Int) : PMIDsResult :=
  let st := pmidLoop fetch ((num - 1) / 200 + 1).toNat 1 [] []
  { pmids := pySlice st.acc num
    pagesRequested := st.pages
    queuePuts :=
      if st.exit = LoopExit.notFound then
        [(0, List.replicate 7 "Not found any papers")]
      else []
    raised := none }

/-! ### Detail fetching: Spider.getPagesInfo (PubMed.py, lines 111-152) -/

/-- The main.article-details element of a fetched detail page, as seen
by the selector queries of getPagesInfo: for each queried tag inside it,
the (already whitespace-normalised) text when the tag is present, none
when it is absent.  The join of the first five author links is kept as
one string (the set comprehension on lines 136-138 guards each item with
`if author.find("a")` and cannot raise).  fullTextLink describes the
full-text-links-list element of lines 148-149:
none            : no element with class full-text-links-list (web keeps
                  its earlier value);
some none       : the element is present but `tag.a["href"]` raises (no
                  anchor, or an anchor without href) — this happens after
                  every metadata field was assigned;
some (some url) : the element's anchor carries href = url. -/
structure DetailPage where
  heading : Option String
  cit : Option String
  journal : Option String
  authors : String
  abstract : Option String
  doi : Option String
  fullTextLink : Option (Option String)
deriving DecidableEq, Repr

/-- Outcome of one detail-page fetch, as seen by getPagesInfo: the fetch
inside the try block raised (err), or it succeeded and the page's
main element with class article-details is absent (page none — the code
then dereferences .find on None) or present with the given content. -/
inductive FetchOutcome where
  | err
  | page (main : Option DetailPage)
deriving DecidableEq, Repr

/-- One row of the result tuple put into result_queue on line 151-152:
(title, authors, date, publication, abstract, doi, web). -/
structure PaperRecord where
  title : String
  authors : String
  date : String
  publication : String
  abstract : String
  doi : String
  web : String
deriving DecidableEq, Repr

/-- Observable behaviour of one getPagesInfo task: the entries it put
into result_queue, and the exception escaping the task, if any. -/
structure TaskResult where
  puts : List (Nat × PaperRecord)
  raised : Option String
deriving DecidableEq, Repr

/-- Spider.getPagesInfo (PubMed.py, lines 111-152).  Control paths:
* fetch raised (err): the except clause fills the six metadata variables
  with "Error", web keeps base_url + pmid, the finally block puts once —
  one entry, no exception escapes;
* fetch succeeded but the page has no main.article-details (page none):
  `content.find(...)` on line 124 raises AttributeError inside the else
  block, which no except clause covers; the finally block then evaluates
  the never-assigned variable title and dies with UnboundLocalError, so
  nothing is put and the task raises;
* fetch succeeded with article-details present: each metadata field is
  the tag text or its default; then, if the full-text-links element is
  present but `tag.a["href"]` raises (fullTextLink = some none), the put
  in the finally block still runs — every metadata variable is already
  bound and web keeps base_url + pmid — but the exception escapes after
  it; otherwise web is the anchor's href (or base_url + pmid when the
  element is absent) and the task finishes cleanly. -/
def getPagesInfo (index : Nat) (pmid : String) (outcome : FetchOutcome) :
    TaskResult :=
  let web := base_url ++ pmid
  match outcome with
  | .err =>
    { puts := [(index,
        ⟨"Error", "Error", "Error", "Error", "Error", "Error", web⟩)]
      raised := none }
  | .page none =>
    { puts := [], raised := some "UnboundLocalError" }
  | .page (some d) =>
    let title := d.heading.getD "No Title"
    let authors := d.authors
    let date := d.cit.getD "No date"
    let publication := d.journal.getD "No publication"
    let abstract := d.abstract.getD "No Abstract"
    let doi := d.doi.getD ""
    match d.fullTextLink with
    | none =>
      { puts := [(index,
          ⟨title, authors, date, publication, abstract, doi, web⟩)]
        raised := none }
    | some none =>
      { puts := [(index,
          ⟨title, authors, date, publication, abstract, doi, web⟩)]
        raised := some "TypeError" }
    | some (some url) =>
      { puts := [(index,
          ⟨title, authors, date, publication, abstract, doi, url⟩)]
        raised := none }

/-- All entries put into result_queue by the detail-fetch stage of
getAllPapers (PubMed.py, lines 162-166): one task per (index, pmid) pair
of the enumerated identifier list, each contributing its puts. -/
def detailEmissions (pmids : List String)
    (outcome : Nat → String → FetchOutcome) : List (Nat × PaperRecord) :=
  pmids.enum.flatMap fun ip => (getPagesInfo ip.1 ip.2 (outcome ip.1 ip.2)).puts

/-- Ordering of result_queue entries: the PriorityQueue compares tuples,
and with pairwise-distinct rank indices the first component decides. -/
def entryLe (a b : Nat × PaperRecord) : Prop := a.1 ≤ b.1

instance : DecidableRel entryLe := fun a b => Nat.decLe a.1 b.1

instance : IsTotal (Nat × PaperRecord) entryLe :=
  ⟨fun a b => Nat.le_total a.1 b.1⟩

instance : IsTrans (Nat × PaperRecord) entryLe :=
  ⟨fun _ _ _ => Nat.le_trans⟩

/-- Reading every entry out of the PriorityQueue after the stage is
complete: the queue delivers its contents in ascending order of the
comparison key, independently of insertion order. -/
def pqReadout (l : List (Nat × PaperRecord)) : List (Nat × PaperRecord) :=
  l.insertionSort entryLe

/-- Observable behaviour of one getAllPapers run: the entries its tasks
put into result_queue, and whether the asyncio.gather call on line 166
re-raises a task's exception out of getAllPapers. -/
structure StageResult where
  queueEntries : List (Nat × PaperRecord)
  gatherRaises : Bool
deriving DecidableEq, Repr

/-- Spider.getAllPapers (PubMed.py, lines 154-172): clamp num to at
least 1, fetch the PMID list, run one detail-fetch task per enumerated
identifier, gather them.  gather raises iff some task raised.
queueEntries collects the puts of every task run to completion; on a
real run where gather raises, tasks still pending when the event loop is
torn down may additionally lose their puts, so no theorem below reads
queueEntries of a raising run with more than one task.  Session
bookkeeping (lines 159-160 and 168-172) has no effect on the emitted
records and is not modelled. -/
def getAllPapers (fetch : Nat → PageResult)
    (outcome : Nat → String → FetchOutcome) (num : Int) : StageResult :=
  let pmids := (getPMIDs fetch (max num 1)).pmids
  { queueEntries := detailEmissions pmids outcome
    gatherRaises := pmids.enum.any fun ip =>
      (getPagesInfo ip.1 ip.2 (outcome ip.1 ip.2)).raised.isSome }

/-! ### DOI file loading: MenuBar.downloadByDoiFile (menu.py, lines 95-117) -/

/-- MenuBar.downloadByDoiFile (menu.py, lines 95-117), restricted to the
pure list transformation it performs on the lines read from the chosen
file (file dialogs and the downloader call are external collaborators).
Each produced descriptor mirrors the Python list
[doi.strip(), None, doi.strip(), None]; Python str.strip() with no
argument trims surrounding whitespace, embedded as String.trim. -/
def downloadByDoiFile (lines : List String) : List (List (Option String)) :=
  lines.filterMap fun doi =>
    if doi.startsWith "10." then
      some [some doi.trim, none, some doi.trim, none]
    else
      none

/-! ### Concrete remote-service behaviours used in closed statements -/

/-- A provider whose every listing page lacks the search-results chunk. -/
def notFoundFetch : Nat → PageResult := fun _ => PageResult.notFound

/-- A provider whose first listing page yields two identifiers (fewer
than the page size 200) and whose second page yields one. -/
def shortPageFetch : Nat → PageResult :=
  fun p => if p = 1 then PageResult.found ["a", "b"] else PageResult.found ["c"]

/-- A provider whose every listing page yields exactly one identifier. -/
def singleIdFetch : Nat → PageResult := fun _ => PageResult.found ["only"]

/-- A provider with exactly one identifier in total. -/
def onePageFetch : Nat → PageResult := fun _ => PageResult.found ["a"]

/-- A provider whose first listing page is full (200 identifiers) and
whose second request times out. -/
def fullThenTimeoutFetch : Nat → PageResult :=
  fun p => if p = 1 then PageResult.found (List.replicate 200 "x")
           else PageResult.timeout

/-- A completion order for a two-task detail-fetch stage in which the
tasks finish in reverse of their rank order. -/
def reversedArrival : List (Nat × PaperRecord) :=
  (detailEmissions ["a", "b"] fun _ _ => FetchOutcome.err).reverse

/-! ### Helper lemmas -/

/-- A detail-fetch task from which no exception escapes puts exactly one
entry, keyed by its own rank index. -/
theorem getPagesInfo_puts_map_fst (index : Nat) (pmid : String)
    (outcome : FetchOutcome)
    (h : (getPagesInfo index pmid outcome).raised = none) :
    (getPagesInfo index pmid outcome).puts.map Prod.fst = [index] := by
  match outcome with
  | .err => rfl
  | .page none => exact absurd h (by simp [getPagesInfo])
  | .page (some d) =>
    match hft : d.fullTextLink with
    | none => simp [getPagesInfo, hft]
    | some none => exact absurd h (by simp [getPagesInfo, hft])
    | some (some url) => simp [getPagesInfo, hft]

/-- In a batch none of whose tasks raises, the rank keys emitted are the
enumeration indices of the identifier list. -/
theorem detailEmissions_map_fst (pmids : List String)
    (outcome : Nat → String → FetchOutcome)
    (hok : ∀ ip ∈ pmids.enum,
      (getPagesInfo ip.1 ip.2 (outcome ip.1 ip.2)).raised = none) :
    (detailEmissions pmids outcome).map Prod.fst = List.range pmids.length := by
  have h : ∀ l : List (Nat × String),
      (∀ ip ∈ l, (getPagesInfo ip.1 ip.2 (outcome ip.1 ip.2)).raised = none) →
      ((l.flatMap fun ip => (getPagesInfo ip.1 ip.2 (outcome ip.1 ip.2)).puts).map
        Prod.fst) = l.map Prod.fst := by
    intro l
    induction l with
    | nil => intro _; rfl
    | cons hd tl ih =>
      intro hl
      simp only [List.flatMap_cons, List.map_append, List.map_cons]
      rw [getPagesInfo_puts_map_fst hd.1 hd.2 _ (hl hd (List.mem_cons_self hd tl)),
        ih fun ip hip => hl ip (List.mem_cons_of_mem hd hip)]
      rfl
  unfold detailEmissions
  rw [h pmids.enum hok, List.enum_map_fst]

/-- A batch none of whose tasks raises emits exactly one entry per
identifier. -/
theorem detailEmissions_length (pmids : List String)
    (outcome : Nat → String → FetchOutcome)
    (hok : ∀ ip ∈ pmids.enum,
      (getPagesInfo ip.1 ip.2 (outcome ip.1 ip.2)).raised = none) :
    (detailEmissions pmids outcome).length = pmids.length := by
  have h := congrArg List.length (detailEmissions_map_fst pmids outcome hok)
  simpa using h

/-- Projections of getPMIDs. -/
theorem getPMIDs_pmids (fetch : Nat → PageResult) (num : Int) :
    (getPMIDs fetch num).pmids =
      pySlice (pmidLoop fetch ((num - 1) / 200 + 1).toNat 1 [] []).acc num :=
  rfl

/-- The pages requested by getPMIDs are the pages visited by its loop. -/
theorem getPMIDs_pages (fetch : Nat → PageResult) (num : Int) :
    (getPMIDs fetch num).pagesRequested =
      (pmidLoop fetch ((num - 1) / 200 + 1).toNat 1 [] []).pages :=
  rfl

/-- No exception ever escapes getPMIDs: the return inside its finally
block discards any in-flight exception. -/
theorem getPMIDs_raised (fetch : Nat → PageResult) (num : Int) :
    (getPMIDs fetch num).raised = none :=
  rfl

/-! ### Claim theorems -/

/-- C7 counterexample: with keyword, both years, author and journal all
non-empty, the claim predicts term = the conjunction of exactly the
keyword, date and author clauses; the code appends a fourth
journal-clause, so the produced term differs from the predicted one. -/
theorem C7_term_counterexample :
    (parseData "kw" "2010" "2020" "au" "nature" "").term =
      "kw AND 2010:2020[dp] AND au[author] AND nature[journal]" ∧
    (parseData "kw" "2010" "2020" "au" "nature" "").term ≠
      "kw AND 2010:2020[dp] AND au[author]" := by
  constructor
  · rfl
  · decide

/-- C7 amended: the term field is the " AND "-conjunction, in fixed
order, of the keyword clause (always present, even when keyword is
empty), the date clause (present iff both start_year and end_year are
non-empty), the author clause (present iff author is non-empty), and a
journal clause (present iff journal is non-empty). -/
theorem C7_term_clauses (keyword start_year end_year author journal sorting :
    String) :
    (parseData keyword start_year end_year author journal sorting).term =
      " AND ".intercalate
        ([keyword] ++
          (if start_year ≠ "" ∧ end_year ≠ "" then
            [start_year ++ ":" ++ end_year ++ "[dp]"] else []) ++
          (if author ≠ "" then [author ++ "[author]"] else []) ++
          (if journal ≠ "" then [journal ++ "[journal]"] else [])) := by
  unfold parseData
  split <;> split <;> split <;> simp

/-- C8 counterexample: on a fetched page with no single-result redirect
and a results-amount element holding no count (the code's own
representation of zero matches), getTotalPaperNum returns a normal
zero-count string instead of failing with a Timeout or NotFound
condition. -/
theorem C8_zero_matches_counterexample :
    getTotalPaperNum (.page false (some none)) = .ok "共找到0篇" := by
  rfl

/-- C8 amended: the total-count operation raises its Timeout tip only on
a network timeout; a page indicating zero matches (results-amount element
without a count) yields a normal return reporting zero; a single-result
redirect page returns the normalized count 1 without consulting the
results-amount element; otherwise the counted amount is returned with
commas stripped. -/
theorem C8_total_num_behaviour :
    getTotalPaperNum .timeout = .tip "连接超时" ∧
    (∀ resultsAmount, getTotalPaperNum (.page true resultsAmount) =
      .ok "共找到1篇") ∧
    getTotalPaperNum (.page false (some none)) = .ok "共找到0篇" ∧
    (∀ s, getTotalPaperNum (.page false (some (some s))) =
      .ok ("共找到" ++ s.replace "," "" ++ "篇")) := by
  refine ⟨rfl, fun resultsAmount => rfl, rfl, fun s => rfl⟩

/-- C9: every line starting with the identifier marker produces exactly
one download descriptor whose title slot and doi slot both hold the
trimmed line (the identifier without its surrounding whitespace and
trailing newline), and every other line is dropped: the output is exactly
the image of the well-formed lines, so its length is the number of
well-formed lines. -/
theorem C9_doi_file_roundtrip (lines : List String) :
    downloadByDoiFile lines =
      (lines.filter fun l => l.startsWith "10.").map
        (fun l => [some l.trim, none, some l.trim, none]) ∧
    (downloadByDoiFile lines).length =
      (lines.filter fun l => l.startsWith "10.").length := by
  have h : downloadByDoiFile lines =
      (lines.filter fun l => l.startsWith "10.").map
        (fun l => [some l.trim, none, some l.trim, none]) := by
    induction lines with
    | nil => rfl
    | cons hd tl ih =>
      by_cases hhd : hd.startsWith "10."
      · simp [downloadByDoiFile, List.filterMap_cons, hhd, List.filter_cons]
        simpa [downloadByDoiFile] using ih
      · simp [downloadByDoiFile, List.filterMap_cons, hhd, List.filter_cons]
        simpa [downloadByDoiFile] using ih
  exact ⟨h, by rw [h]; simp⟩

/-- C2: when the very first listing page reports no results, getPMIDs
does not propagate any exception to its caller (the raised TipException
is discarded by the return inside the finally block); it puts the
sentinel row into result_queue and returns the empty identifier list,
after which getAllPapers proceeds and runs a zero-task detail-fetch
stage instead of short-circuiting. -/
theorem C2_no_results_not_propagated :
    (getPMIDs notFoundFetch 1).pmids = [] ∧
    (getPMIDs notFoundFetch 1).raised = none ∧
    (getPMIDs notFoundFetch 1).queuePuts =
      [(0, List.replicate 7 "Not found any papers")] ∧
    (getAllPapers notFoundFetch (fun _ _ => FetchOutcome.err) 1).queueEntries
      = [] ∧
    (getAllPapers notFoundFetch (fun _ _ => FetchOutcome.err) 1).gatherRaises
      = false := by
  refine ⟨rfl, rfl, by decide, rfl, rfl⟩

/-- C4 counterexample: a detail-fetch task whose fetch raises emits a
record whose seventh field (the fulltext link slot) holds the detail-page
URL, not the "Error" sentinel, so not all fields of the emitted record
carry the uniform sentinel. -/
theorem C4_error_record_counterexample :
    getPagesInfo 0 "123" .err =
      { puts := [(0, ⟨"Error", "Error", "Error", "Error", "Error", "Error",
                      "https://pubmed.ncbi.nlm.nih.gov/123"⟩)]
        raised := none } ∧
    "https://pubmed.ncbi.nlm.nih.gov/123" ≠ "Error" := by
  exact ⟨rfl, by decide⟩

/-- C4 amended: a detail-fetch task whose fetch raises still emits
exactly one record at its own rank index, with the six metadata fields
(title, authors, date, publication, abstract, doi) all set to the
"Error" sentinel and the link field set to the item's detail-page URL;
no exception escapes such a task, and in every batch none of whose tasks
raises (fetch-error tasks raise nothing, so any of them may be present)
the total number of emitted entries equals the number of identifiers. -/
theorem C4_error_record :
    (∀ (index : Nat) (pmid : String),
      getPagesInfo index pmid .err =
        { puts := [(index, ⟨"Error", "Error", "Error", "Error", "Error",
                            "Error", base_url ++ pmid⟩)]
          raised := none }) ∧
    (∀ (pmids : List String) (outcome : Nat → String → FetchOutcome),
      (∀ ip ∈ pmids.enum,
        (getPagesInfo ip.1 ip.2 (outcome ip.1 ip.2)).raised = none) →
      (detailEmissions pmids outcome).length = pmids.length) := by
  exact ⟨fun index pmid => rfl, detailEmissions_length⟩

/-- C4 amended witness: a two-identifier batch whose tasks both hit the
fetch-error path still emits two entries. -/
theorem C4_error_record_witness :
    (detailEmissions ["a", "b"] fun _ _ => FetchOutcome.err).length = 2 :=
  C4_error_record.2 ["a", "b"] (fun _ _ => FetchOutcome.err) (by decide)

/-- C10: a non-positive requested count is clamped to 1 before any
identifier is fetched, so getAllPapers behaves exactly as if one record
had been requested. -/
theorem C10_nonpositive_num_clamped (fetch : Nat → PageResult)
    (outcome : Nat → String → FetchOutcome) (num : Int)
    (h : num ≤ 0) :
    getAllPapers fetch outcome num = getAllPapers fetch outcome 1 := by
  unfold getAllPapers
  rw [show max num 1 = 1 from by omega, show max (1 : Int) 1 = 1 from by omega]

/-- C10 witness at num = -5. -/
theorem C10_nonpositive_num_clamped_witness :
    getAllPapers notFoundFetch (fun _ _ => FetchOutcome.err) (-5) =
      getAllPapers notFoundFetch (fun _ _ => FetchOutcome.err) 1 :=
  C10_nonpositive_num_clamped notFoundFetch (fun _ _ => FetchOutcome.err) (-5)
    (by decide)

/-- When every visited page yields a found chunk and no page before the
last yields a single identifier, the loop visits every page its fuel
allows and accumulates the chunks in page order. -/
theorem pmidLoop_found_run (fetch : Nat → PageResult) (L : Nat → List String) :
    ∀ (fuel start : Nat) (acc : List String) (pages : List Nat),
    (∀ p, start ≤ p → p < start + fuel → fetch p = .found (L p)) →
    (∀ p, start ≤ p → p + 1 < start + fuel → (L p).length ≠ 1) →
    pmidLoop fetch fuel start acc pages =
      ⟨acc ++ (List.range' start fuel).flatMap L,
       pages ++ List.range' start fuel, .normal⟩ := by
  intro fuel
  induction fuel with
  | zero =>
    intro start acc pages h1 h2
    simp [pmidLoop]
  | succ f ih =>
    intro start acc pages h1 h2
    have hf : fetch start = .found (L start) := h1 start le_rfl (by omega)
    by_cases hlen : (L start).length = 1
    · cases f with
      | zero => simp [pmidLoop, hf, hlen, List.range'_one]
      | succ f' => exact absurd hlen (h2 start le_rfl (by omega))
    · have step : pmidLoop fetch (f + 1) start acc pages =
          pmidLoop fetch f (start + 1) (acc ++ L start) (pages ++ [start]) := by
        simp [pmidLoop, hf, hlen]
      rw [step, ih (start + 1) (acc ++ L start) (pages ++ [start])
          (fun p hp1 hp2 => h1 p (by omega) (by omega))
          (fun p hp1 hp2 => h2 p (by omega) (by omega))]
      simp [List.range'_succ, List.append_assoc]

/-- When the pages before start + cnt yield chunks of size other than
one and page start + cnt yields a single identifier, the loop breaks
right after requesting page start + cnt. -/
theorem pmidLoop_break_run (fetch : Nat → PageResult) (L : Nat → List String) :
    ∀ (cnt fuel start : Nat) (acc : List String) (pages : List Nat),
    cnt < fuel →
    (∀ p, start ≤ p → p < start + cnt →
      fetch p = .found (L p) ∧ (L p).length ≠ 1) →
    fetch (start + cnt) = .found (L (start + cnt)) →
    (L (start + cnt)).length = 1 →
    pmidLoop fetch fuel start acc pages =
      ⟨acc ++ (List.range' start (cnt + 1)).flatMap L,
       pages ++ List.range' start (cnt + 1), .normal⟩ := by
  intro cnt
  induction cnt with
  | zero =>
    intro fuel start acc pages hcf h2 hf hone
    obtain ⟨f, rfl⟩ : ∃ f, fuel = f + 1 := ⟨fuel - 1, by omega⟩
    simp only [Nat.add_zero] at hf hone
    simp [pmidLoop, hf, hone, List.range'_one]
  | succ c ih =>
    intro fuel start acc pages hcf h2 hf hone
    obtain ⟨f, rfl⟩ : ∃ f, fuel = f + 1 := ⟨fuel - 1, by omega⟩
    obtain ⟨hfs, hls⟩ := h2 start le_rfl (by omega)
    have step : pmidLoop fetch (f + 1) start acc pages =
        pmidLoop fetch f (start + 1) (acc ++ L start) (pages ++ [start]) := by
      simp [pmidLoop, hfs, hls]
    have harith : start + (c + 1) = (start + 1) + c := by omega
    rw [step, ih f (start + 1) (acc ++ L start) (pages ++ [start])
        (by omega)
        (fun p hp1 hp2 => h2 p (by omega) (by omega))
        (by rw [← harith]; exact hf)
        (by rw [← harith]; exact hone)]
    simp [List.range'_succ, List.append_assoc]

/-- Total number of identifiers in a run of full pages. -/
theorem range'_flatMap_length (L : Nat → List String) :
    ∀ (cnt start : Nat),
    (∀ p, start ≤ p → p < start + cnt → (L p).length = 200) →
    ((List.range' start cnt).flatMap L).length = 200 * cnt := by
  intro cnt
  induction cnt with
  | zero => intro start _; simp
  | succ c ih =>
    intro start h
    rw [List.range'_succ]
    simp only [List.flatMap_cons, List.length_append]
    rw [h start le_rfl (by omega),
      ih (start + 1) (fun p h1 h2 => h p (by omega) (by omega))]
    ring

/-- C3 counterexample: the first listing page of shortPageFetch yields
two identifiers, fewer than the page size 200, yet getPMIDs goes on to
request page 2, so a short page is not treated as the end-of-results
signal. -/
theorem C3_short_page_counterexample :
    shortPageFetch 1 = PageResult.found ["a", "b"] ∧
    (["a", "b"] : List String).length < 200 ∧
    (getPMIDs shortPageFetch 201).pagesRequested = [1, 2] := by
  refine ⟨rfl, by decide, by decide⟩

/-- C3 amended: pagination stops early exactly when a listing page
yields a single identifier: if every page before p yields a chunk of
size other than one and page p (within the loop's page budget) yields
exactly one identifier, the requested pages are precisely 1, ..., p and
no further page request is issued.  (A page yielding fewer than 200 but
more than one identifiers does not stop pagination, as the
counterexample shows.) -/
theorem C3_stop_on_single_identifier (fetch : Nat → PageResult)
    (L : Nat → List String) (num : Int) (p : Nat)
    (hp : 1 ≤ p) (hbound : (p : Int) ≤ (num - 1) / 200 + 1)
    (hbefore : ∀ q, 1 ≤ q → q < p → fetch q = .found (L q) ∧ (L q).length ≠ 1)
    (hfound : fetch p = .found (L p)) (hone : (L p).length = 1) :
    (getPMIDs fetch num).pagesRequested = List.range' 1 p := by
  have hcf : p - 1 < ((num - 1) / 200 + 1).toNat := by omega
  have harith : 1 + (p - 1) = p := by omega
  have hloop := pmidLoop_break_run fetch L (p - 1)
      (((num - 1) / 200 + 1).toNat) 1 [] [] hcf
      (fun q h1 h2 => hbefore q h1 (by omega))
      (by rw [harith]; exact hfound)
      (by rw [harith]; exact hone)
  rw [getPMIDs_pages, hloop]
  simp [show p - 1 + 1 = p from by omega]

/-- C3 amended witness: a provider whose first page yields one
identifier is asked for no second page even with 500 requested. -/
theorem C3_stop_on_single_identifier_witness :
    (getPMIDs singleIdFetch 500).pagesRequested = [1] := by
  have h := C3_stop_on_single_identifier singleIdFetch (fun _ => ["only"])
      500 1 le_rfl (by decide) (fun q h1 h2 => absurd h2 (by omega)) rfl rfl
  rw [h, List.range'_one]

/-- C5: for a requested count N at least 1 and a provider holding at
least N identifiers, every page before the last full, getPMIDs returns
exactly the first N identifiers in provider order and requests exactly
the pages 1, ..., (N - 1) / 200 + 1, whose number is ceil(N / 200). -/
theorem C5_exact_fetch (fetch : Nat → PageResult) (L : Nat → List String)
    (N : Nat) (hN : 1 ≤ N)
    (hfound : ∀ p, 1 ≤ p → p ≤ (N - 1) / 200 + 1 → fetch p = .found (L p))
    (hfull : ∀ p, 1 ≤ p → p < (N - 1) / 200 + 1 → (L p).length = 200)
    (henough : N ≤ 200 * ((N - 1) / 200) + (L ((N - 1) / 200 + 1)).length) :
    (getPMIDs fetch (N : Int)).pmids =
      ((List.range' 1 ((N - 1) / 200 + 1)).flatMap L).take N ∧
    (getPMIDs fetch (N : Int)).pmids.length = N ∧
    (getPMIDs fetch (N : Int)).pagesRequested =
      List.range' 1 ((N - 1) / 200 + 1) ∧
    ((getPMIDs fetch (N : Int)).pagesRequested).length = (N + 199) / 200 := by
  have hfuel : (((N : Int) - 1) / 200 + 1).toNat = (N - 1) / 200 + 1 := by
    omega
  have hloop := pmidLoop_found_run fetch L ((N - 1) / 200 + 1) 1 [] []
      (fun p h1 h2 => hfound p h1 (by omega))
      (fun p h1 h2 => by rw [hfull p h1 (by omega)]; omega)
  have hconcat : List.range' 1 ((N - 1) / 200 + 1) =
      List.range' 1 ((N - 1) / 200) ++ [1 + (N - 1) / 200] := by
    have h0 := @List.range'_concat 1 1 ((N - 1) / 200)
    rwa [one_mul] at h0
  have hlen1 : ((List.range' 1 ((N - 1) / 200)).flatMap L).length =
      200 * ((N - 1) / 200) :=
    range'_flatMap_length L ((N - 1) / 200) 1
      (fun p h1 h2 => hfull p h1 (by omega))
  have htot : N ≤ ((List.range' 1 ((N - 1) / 200 + 1)).flatMap L).length := by
    rw [hconcat]
    simp only [List.flatMap_append, List.length_append, hlen1]
    simpa [Nat.add_comm] using henough
  have hpm : (getPMIDs fetch (N : Int)).pmids =
      ((List.range' 1 ((N - 1) / 200 + 1)).flatMap L).take N := by
    rw [getPMIDs_pmids, hfuel, hloop]
    show pySlice _ _ = _
    unfold pySlice
    rw [if_pos (Int.natCast_nonneg N)]
    simp
  refine ⟨hpm, ?_, ?_, ?_⟩
  · rw [hpm, List.length_take]
    omega
  · rw [getPMIDs_pages, hfuel, hloop]
    simp
  · rw [getPMIDs_pages, hfuel, hloop]
    simp only [List.nil_append, List.length_range']
    omega

/-- C5 witness at N = 1 with a one-identifier provider. -/
theorem C5_exact_fetch_witness :
    (getPMIDs onePageFetch 1).pmids = ["a"] ∧
    (getPMIDs onePageFetch 1).pagesRequested = [1] :=
  ⟨(C5_exact_fetch onePageFetch (fun _ => ["a"]) 1 le_rfl (fun p _ _ => rfl)
      (fun p h1 h2 => absurd h2 (by omega)) (by decide)).1.trans (by decide),
   (C5_exact_fetch onePageFetch (fun _ => ["a"]) 1 le_rfl (fun p _ _ => rfl)
      (fun p h1 h2 => absurd h2 (by omega)) (by decide)).2.2.1.trans
     (by decide)⟩

/-- C6: the fetcher never returns more identifiers than requested, and
on a timeout in mid-pagination it returns the identifiers accumulated on
the earlier pages (truncated to the requested count) while no exception
escapes the call. -/
theorem C6_truncation_and_timeout :
    (∀ (fetch : Nat → PageResult) (num : Int), 0 ≤ num →
      ((getPMIDs fetch num).pmids).length ≤ num.toNat) ∧
    (∀ (fetch : Nat → PageResult) (ids : List String) (num : Int),
      fetch 1 = .found ids → ids.length = 200 → fetch 2 = .timeout →
      201 ≤ num →
      (getPMIDs fetch num).pmids = ids ∧
      (getPMIDs fetch num).raised = none) := by
  constructor
  · intro fetch num h
    rw [getPMIDs_pmids]
    unfold pySlice
    rw [if_pos h]
    simp [List.length_take]
  · intro fetch ids num h1 hlen h2 hnum
    obtain ⟨f, hf⟩ : ∃ f, ((num - 1) / 200 + 1).toNat = f + 2 :=
      ⟨((num - 1) / 200 + 1).toNat - 2, by omega⟩
    have hloop : pmidLoop fetch (((num - 1) / 200 + 1).toNat) 1 [] [] =
        ⟨ids, [1, 2], .timeout⟩ := by
      rw [hf]
      simp [pmidLoop, h1, h2, hlen]
    refine ⟨?_, rfl⟩
    rw [getPMIDs_pmids, hloop]
    show pySlice ids num = ids
    unfold pySlice
    rw [if_pos (by omega : (0 : Int) ≤ num)]
    exact List.take_of_length_le (by omega)

/-- C6 witness: the length bound at num = 0, and the
partial-progress-on-timeout behaviour with a full first page and a
timing-out second page at num = 201. -/
theorem C6_truncation_and_timeout_witness :
    (getPMIDs fullThenTimeoutFetch 0).pmids.length ≤ (0 : Int).toNat ∧
    (getPMIDs fullThenTimeoutFetch 201).pmids = List.replicate 200 "x" := by
  refine ⟨C6_truncation_and_timeout.1 fullThenTimeoutFetch 0 (by decide), ?_⟩
  exact (C6_truncation_and_timeout.2 fullThenTimeoutFetch
      (List.replicate 200 "x") 201 rfl (List.length_replicate 200 "x") rfl
      (by decide)).1

/-- C1 counterexample: an identifier list of length 1 whose single task
fetches successfully but receives a page without main.article-details
emits no entry at all — the task dies in its finally block with
UnboundLocalError before the put — so the stage does not emit exactly
N = 1 entries and the readout misses rank 0. -/
theorem C1_missing_main_counterexample :
    (getPagesInfo 0 "missing" (.page none)).puts = [] ∧
    (getPagesInfo 0 "missing" (.page none)).raised =
      some "UnboundLocalError" ∧
    (detailEmissions ["missing"] fun _ _ => .page none).length = 0 ∧
    (["missing"] : List String).length = 1 := by
  exact ⟨rfl, rfl, rfl, rfl⟩

/-- C1 amended: for every identifier list and every run in which no
detail-fetch task raises — every successful fetch yields a page carrying
the article-details element and no full-text-links element with an
unusable anchor; fetch errors are fine, they emit Error-sentinel
records — the stage emits exactly N (rank, record) entries, and reading
the priority structure out in whatever order the tasks happened to
complete (any permutation of the emitted entries) yields a sequence of
length N whose rank keys are exactly 0, ..., N - 1 in ascending order:
sorted, no duplicate, no missing index. -/
theorem C1_ordered_reassembly (pmids : List String)
    (outcome : Nat → String → FetchOutcome)
    (hok : ∀ ip ∈ pmids.enum,
      (getPagesInfo ip.1 ip.2 (outcome ip.1 ip.2)).raised = none)
    (arrival : List (Nat × PaperRecord))
    (hcomplete : arrival.Perm (detailEmissions pmids outcome)) :
    (detailEmissions pmids outcome).length = pmids.length ∧
    (pqReadout arrival).length = pmids.length ∧
    (pqReadout arrival).map Prod.fst = List.range pmids.length := by
  have hperm : (pqReadout arrival).Perm (detailEmissions pmids outcome) :=
    (List.perm_insertionSort entryLe arrival).trans hcomplete
  have hkeys : ((pqReadout arrival).map Prod.fst).Perm
      (List.range pmids.length) := by
    have h := hperm.map Prod.fst
    rwa [detailEmissions_map_fst pmids outcome hok] at h
  have hsorted1 : List.Sorted (· ≤ ·) ((pqReadout arrival).map Prod.fst) :=
    List.pairwise_map.mpr (List.sorted_insertionSort entryLe arrival)
  have hsorted2 : List.Sorted (· ≤ ·) (List.range pmids.length) :=
    (List.sorted_lt_range pmids.length).imp fun h => Nat.le_of_lt h
  refine ⟨detailEmissions_length pmids outcome hok, ?_,
    List.eq_of_perm_of_sorted hkeys hsorted1 hsorted2⟩
  rw [hperm.length_eq, detailEmissions_length pmids outcome hok]

/-- C1 amended witness: a two-task stage (both tasks on the fetch-error
path, which raises nothing) whose tasks complete in reverse order still
reads out ranks 0, 1. -/
theorem C1_ordered_reassembly_witness :
    (pqReadout reversedArrival).length = 2 ∧
    (pqReadout reversedArrival).map Prod.fst = List.range 2 := by
  have h := C1_ordered_reassembly ["a", "b"] (fun _ _ => FetchOutcome.err)
      (by decide) reversedArrival (List.reverse_perm _)
  exact ⟨h.2.1, h.2.2⟩

end GetPaper
